import Mathlib

/-!
# Franklin firmware: Cartesian and Extruder space types

A shallow embedding of `firmware/type-carthesian.cpp` (the Cartesian and
Extruder coordinate transforms) together with the parts of the data model of
`firmware.h` that those functions touch.

Conventions of the embedding:

* a C `float` is kept as its IEEE 754 binary32 bit pattern (`F32`); the code
  embedded here only copies floats, tests them with `isnan` and assigns the
  constant `0`, so no floating point arithmetic is needed.  Equality of two
  `F32` is equality of bit patterns;
* C arrays (`float *`, `Motor **`, `Axis **`) are lists; an access outside the
  list is a fault and makes the operation return `none`;
* a reference parameter (`int16_t &addr`) is returned as part of the result;
* `uint8_t` quantities are natural numbers; `Space.wf` records that they are
  below 256 and that the arrays have the advertised sizes;
* the address cursor is an `int16_t`: an integer that the store primitives
  advance with two's complement wrap (`int16`); those
  primitives (`storage.cpp`) and `Space::setup_nums` (`space.cpp`) are not
  among the sources and are modelled from the specification.
-/

set_option linter.unusedVariables false

namespace Franklin

/-! ## Floats -/

/-- A C `float`, as its 32 bit IEEE 754 pattern. -/
abbrev F32 := Fin 4294967296

/-- The float `0` (what the integer constant `0` converts to): all bits clear. -/
def F32.zero : F32 := ⟨0, by decide⟩

/-- The quiet NaN that the macro `NAN` stands for (`0x7fc00000`). -/
def F32.nan : F32 := ⟨2143289344, by decide⟩

/-- The float `1.0` (`0x3f800000`); used in examples only. -/
def F32.one : F32 := ⟨1065353216, by decide⟩

/-- The float `2.0` (`0x40000000`); used in examples only. -/
def F32.two : F32 := ⟨1073741824, by decide⟩

/-- The `isnan` of `math.h`: exponent bits all set and a non-zero mantissa. -/
def isnan (x : F32) : Bool :=
  (x.val / 8388608) % 256 == 255 && x.val % 8388608 != 0

/-! ## Data model (`firmware.h`) -/

/-- The `struct Axis`, its plain data fields. -/
structure Axis where
  offset : F32
  park : F32
  park_order : Nat
  source : F32
  current : F32
  max_v : F32
  min : F32
  max : F32
deriving DecidableEq

/-- The `struct Motor`, its plain data fields; `current_pos` is the float position
that `reset_pos` tests with `isnan`. -/
structure Motor where
  steps_per_m : F32
  max_steps : Nat
  home_pos : F32
  limit_v : F32
  limit_a : F32
  home_order : Nat
  current_pos : F32
deriving DecidableEq

/-- The `struct ExtruderData`. -/
structure ExtruderData where
  dx : F32
  dy : F32
  dz : F32
deriving DecidableEq

/-- The `struct Space`.  `type_data` is the `void *` payload: `none` is a pointer
to nothing, `some e` points to an `ExtruderData`. -/
structure Space where
  type : Nat
  id : Nat
  type_data : Option ExtruderData
  max_deviation : F32
  num_axes : Nat
  num_motors : Nat
  motor : List Motor
  axis : List Axis
deriving DecidableEq

/-- The shape every `Space` of the program has: the counts are `uint8_t` and
the two pointer arrays have `num_axes` and `num_motors` entries. -/
def Space.wf (s : Space) : Prop :=
  s.num_axes < 256 ∧ s.num_motors < 256 ∧
    s.axis.length = s.num_axes ∧ s.motor.length = s.num_motors

instance (s : Space) : Decidable s.wf :=
  inferInstanceAs (Decidable (s.num_axes < 256 ∧ s.num_motors < 256 ∧
    s.axis.length = s.num_axes ∧ s.motor.length = s.num_motors))

/-- Conversion of an `int` result to `int16_t` (two's complement wrap). -/
def int16 (x : Int) : Int := (x + 32768) % 65536 - 32768

/-! ## The persistent store (`storage.cpp`, not part of the sources) -/

/-- Modelled from the spec: the byte-addressable store of `storage.cpp`, which
is missing.  It holds one byte per address; the `eeprom` flag the callers pass
selects one of two banks. -/
structure Storage where
  eeprom : Int → Nat
  ram : Int → Nat

/-- The bank chosen by the `eeprom` flag. -/
def Storage.bank (st : Storage) (eeprom : Bool) : Int → Nat :=
  if eeprom then st.eeprom else st.ram

/-- Store one byte in the chosen bank. -/
def Storage.put (st : Storage) (eeprom : Bool) (addr : Int) (b : Nat) : Storage :=
  if eeprom then { st with eeprom := fun a => if a = addr then b else st.eeprom a }
  else { st with ram := fun a => if a = addr then b else st.ram a }

/-- Modelled from the spec: `read_8` of the missing `storage.cpp`, the 8-bit
read primitive "at an advancing address cursor": the byte at `addr`, and the
cursor moved by one; the cursor is the caller's `int16_t`, so the step wraps. -/
def read_8 (st : Storage) (addr : Int) (eeprom : Bool) : Nat × Int :=
  (st.bank eeprom addr % 256, int16 (addr + 1))

/-- Modelled from the spec: `write_8` of the missing `storage.cpp`: stores the
`uint8_t` argument at `addr` and moves the cursor by one; the cursor is the
caller's `int16_t`, so the step wraps. -/
def write_8 (st : Storage) (addr : Int) (data : Nat) (eeprom : Bool) : Storage × Int :=
  (st.put eeprom addr (data % 256), int16 (addr + 1))

/-- The float whose four bytes are `b0` (least significant) to `b3`. -/
def F32.ofBytes (b0 b1 b2 b3 : Nat) : F32 :=
  ⟨(b0 + 256 * b1 + 65536 * b2 + 16777216 * b3) % 4294967296, Nat.mod_lt _ (by decide)⟩

/-- Modelled from the spec: `read_float` of the missing `storage.cpp`: four
bytes, least significant first ("little-endian floats"), cursor moved by
four. -/
def read_float (st : Storage) (addr : Int) (eeprom : Bool) : F32 × Int :=
  let r0 := read_8 st addr eeprom
  let r1 := read_8 st r0.2 eeprom
  let r2 := read_8 st r1.2 eeprom
  let r3 := read_8 st r2.2 eeprom
  (F32.ofBytes r0.1 r1.1 r2.1 r3.1, r3.2)

/-- Modelled from the spec: `write_float` of the missing `storage.cpp`: the
four bytes of the float, least significant first, cursor moved by four. -/
def write_float (st : Storage) (addr : Int) (data : F32) (eeprom : Bool) : Storage × Int :=
  let w0 := write_8 st addr (data.val % 256) eeprom
  let w1 := write_8 w0.1 w0.2 (data.val / 256 % 256) eeprom
  let w2 := write_8 w1.1 w1.2 (data.val / 65536 % 256) eeprom
  write_8 w2.1 w2.2 (data.val / 16777216 % 256) eeprom

/-! ## Reconfiguration (`Space::setup_nums`, defined in the missing `space.cpp`) -/

/-- Modelled from the spec: the default entry a reconfiguration puts in a new
axis slot ("position NaN, limits unset"). -/
def Axis.fresh : Axis :=
  { offset := F32.zero, park := F32.nan, park_order := 0, source := F32.nan,
    current := F32.nan, max_v := F32.nan, min := F32.nan, max := F32.nan }

/-- Modelled from the spec: the default entry a reconfiguration puts in a new
motor slot ("position NaN, limits unset"). -/
def Motor.fresh : Motor :=
  { steps_per_m := F32.nan, max_steps := 1, home_pos := F32.nan, limit_v := F32.nan,
    limit_a := F32.nan, home_order := 0, current_pos := F32.nan }

/-- Reallocation of one array: entries kept by index, new ones set to `d`. -/
def resize {α : Type} (l : List α) (n : Nat) (d : α) : List α :=
  l.take n ++ List.replicate (n - l.length) d

/-- Modelled from the spec: `Space::setup_nums`, whose body is in the missing
`space.cpp`.  It is the single reconfiguration operation: it sets `num_axes`
and `num_motors` together and reallocates both arrays, "preserving existing
entries by index and default-initializing new ones"; when it fails the
reconfiguration is aborted and the previous configuration stays.  Whether the
allocation succeeds is not decided by the Space, so it is the input `mem_ok`.
The result is the returned `bool` and the Space afterwards. -/
def setup_nums (mem_ok : Bool) (s : Space) (na nm : Nat) : Bool × Space :=
  if mem_ok then
    (true, { s with num_axes := na, num_motors := nm,
                    axis := resize s.axis na Axis.fresh,
                    motor := resize s.motor nm Motor.fresh })
  else (false, s)

/-! ## `type-carthesian.cpp` -/

/-- The loop of `xyz2motors`, with `k` iterations left and loop variable `a`:
`motors[a] = xyz[a]`. -/
def xyz2motors_from (xyz : List F32) : Nat → Nat → List F32 → Option (List F32)
  | 0, _, motors => some motors
  | k + 1, a, motors =>
    match xyz[a]? with
    | none => none
    | some v =>
      if a < motors.length then xyz2motors_from xyz k (a + 1) (motors.set a v)
      else none

/-- The function `xyz2motors(s, xyz, motors, ok)`: runs `a` from `0` while `a < s->num_axes`.
The result is the `motors` array and the flag behind `ok` after the call. -/
def xyz2motors (s : Space) (xyz motors : List F32) (ok : Bool) : Option (List F32 × Bool) :=
  (xyz2motors_from xyz s.num_axes 0 motors).map fun m => (m, ok)

/-- One iteration of the loop of `reset_pos`, for axis `a`. -/
def reset_pos_step (a : Nat) (s : Space) : Option Space :=
  match s.motor[a]?, s.axis[a]? with
  | some m, some ax =>
    if isnan m.current_pos then
      some { s with axis := s.axis.set a { ax with source := F32.zero },
                    motor := s.motor.set a { m with current_pos := F32.zero } }
    else
      some { s with axis := s.axis.set a { ax with source := m.current_pos } }
  | _, _ => none

/-- The loop of `reset_pos`, with `k` iterations left and loop variable `a`. -/
def reset_pos_from : Nat → Nat → Space → Option Space
  | 0, _, s => some s
  | k + 1, a, s =>
    match reset_pos_step a s with
    | none => none
    | some s1 => reset_pos_from k (a + 1) s1

/-- The function `reset_pos(s)`: runs `a` from `0` while `a < s->num_axes`. -/
def reset_pos (s : Space) : Option Space :=
  reset_pos_from s.num_axes 0 s

/-- The function `check_position(s, data)`: empty body; the Space and the vector afterwards. -/
def check_position (s : Space) (data : List F32) : Space × List F32 :=
  (s, data)

/-- What a loader leaves behind: the Space, the address cursor and the lines
sent to `debug`. -/
structure LoadResult where
  space : Space
  addr : Int
  debug : List String

/-- The function `load(s, old_type, addr, eeprom)` of the Cartesian type. -/
def load (mem_ok : Bool) (s : Space) (old_type : Nat) (st : Storage) (addr : Int)
    (eeprom : Bool) : LoadResult :=
  let r := read_8 st addr eeprom
  let num := r.1
  let u := setup_nums mem_ok s num num
  if !u.1 then { space := u.2, addr := r.2, debug := ["Failed to set up cartesian axes"] }
  else { space := u.2, addr := r.2, debug := [] }

/-- The function `save(s, addr, eeprom)` of the Cartesian type: the store and the cursor
afterwards. -/
def save (s : Space) (st : Storage) (addr : Int) (eeprom : Bool) : Storage × Int :=
  write_8 st addr s.num_axes eeprom

/-- The function `init(s)` of the Cartesian type: empty body. -/
def init (s : Space) : Space := s

/-- The function `free(s)` of the Cartesian type: empty body. -/
def free (s : Space) : Space := s

/-- The function `memsize(s)`; `memsize_std` is a method of the missing `space.cpp`. -/
def memsize (memsize_std : Space → Int) (s : Space) : Int :=
  int16 (1 * 1 + memsize_std s)

/-- The function `savesize(s)`; `savesize_std` is a method of the missing `space.cpp`. -/
def savesize (savesize_std : Space → Int) (s : Space) : Int :=
  int16 (1 * 1 + savesize_std s)

/-- The function `eload(s, old_type, addr, eeprom)` of the Extruder type.  `EDATA(s)`
dereferences `type_data`, so a Space without payload is a fault. -/
def eload (mem_ok : Bool) (s : Space) (old_type : Nat) (st : Storage) (addr : Int)
    (eeprom : Bool) : Option LoadResult :=
  match s.type_data with
  | none => none
  | some _ =>
    let rx := read_float st addr eeprom
    let ry := read_float st rx.2 eeprom
    let rz := read_float st ry.2 eeprom
    let s1 : Space := { s with type_data := some { dx := rx.1, dy := ry.1, dz := rz.1 } }
    let r := read_8 st rz.2 eeprom
    let num := r.1
    let u := setup_nums mem_ok s1 num num
    if !u.1 then
      some { space := u.2, addr := r.2, debug := ["Failed to set up cartesian axes"] }
    else some { space := u.2, addr := r.2, debug := [] }

/-- The function `esave(s, addr, eeprom)` of the Extruder type. -/
def esave (s : Space) (st : Storage) (addr : Int) (eeprom : Bool) : Option (Storage × Int) :=
  match s.type_data with
  | none => none
  | some e =>
    let wx := write_float st addr e.dx eeprom
    let wy := write_float wx.1 wx.2 e.dy eeprom
    let wz := write_float wy.1 wy.2 e.dz eeprom
    some (write_8 wz.1 wz.2 s.num_axes eeprom)

/-- The function `einit(s)`: `type_data = new ExtruderData`; the new object is not
initialised, so its contents are the input `junk`. -/
def einit (junk : ExtruderData) (s : Space) : Space :=
  { s with type_data := some junk }

/-- The function `efree(s)`: deletes the `ExtruderData` object and assigns
nothing, so every field of the Space, the pointer `type_data` too, keeps its
value; the lifetime of the deleted object is outside the embedding. -/
def efree (s : Space) : Space := s

/-- The function `ememsize(s)`; `sizeof(ExtruderData)` is three 4-byte floats. -/
def ememsize (memsize_std : Space → Int) (s : Space) : Int :=
  int16 (1 * 1 + memsize_std s + 12)

/-- The function `esavesize(s)`. -/
def esavesize (savesize_std : Space → Int) (s : Space) : Int :=
  int16 (1 * 1 + 4 * 3 + savesize_std s)

/-- One entry of the dispatch table `space_types`. -/
structure SpaceType where
  xyz2motors : Space → List F32 → List F32 → Bool → Option (List F32 × Bool)
  reset_pos : Space → Option Space
  check_position : Space → List F32 → Space × List F32
  load : Bool → Space → Nat → Storage → Int → Bool → Option LoadResult
  save : Space → Storage → Int → Bool → Option (Storage × Int)
  init : ExtruderData → Space → Space
  free : Space → Space
  memsize : (Space → Int) → Space → Int
  savesize : (Space → Int) → Space → Int

/-- The function `Cartesian_init(num)`: the entry it writes to `space_types[num]`. -/
def Cartesian_init : SpaceType :=
  { xyz2motors := xyz2motors
    reset_pos := reset_pos
    check_position := check_position
    load := fun mem_ok s old_type st addr eeprom => some (load mem_ok s old_type st addr eeprom)
    save := fun s st addr eeprom => some (save s st addr eeprom)
    init := fun _ s => init s
    free := free
    memsize := memsize
    savesize := savesize }

/-- The function `Extruder_init(num)`: the entry it writes to `space_types[num]`. -/
def Extruder_init : SpaceType :=
  { xyz2motors := xyz2motors
    reset_pos := reset_pos
    check_position := check_position
    load := eload
    save := esave
    init := einit
    free := efree
    memsize := ememsize
    savesize := esavesize }

/-- Everything a call `xyz2motors(s, xyz, motors, ok)` can reach: the Space
behind `s`, the two arrays and the flag behind `ok`. -/
structure XyzCall where
  s : Space
  xyz : List F32
  motors : List F32
  ok : Bool
deriving DecidableEq

/-- A call of the `xyz2motors` entry `f` of a dispatch table, as a step on what
the call can reach: the callee stores to `motors` and `ok` only, everything
else is as before. -/
def XyzCall.run (f : Space → List F32 → List F32 → Bool → Option (List F32 × Bool))
    (c : XyzCall) : Option XyzCall :=
  (f c.s c.xyz c.motors c.ok).map fun r => { c with motors := r.1, ok := r.2 }

/-! ## Protocol constants (`cdriver.h`) -/

/-- The `enum SingleByteCommands`. -/
inductive SingleByteCommands where
  | CMD_NACK
  | CMD_ACK0
  | CMD_STALL0
  | CMD_STALL1
  | CMD_ID
  | CMD_ACK1
  | CMD_DEBUG
  | CMD_UNUSED
deriving DecidableEq

/-- The value each enumerator of `SingleByteCommands` is given. -/
def SingleByteCommands.val : SingleByteCommands → Nat
  | CMD_NACK => 0x80
  | CMD_ACK0 => 0xb3
  | CMD_STALL0 => 0x87
  | CMD_STALL1 => 0x9e
  | CMD_ID => 0xaa
  | CMD_ACK1 => 0xad
  | CMD_DEBUG => 0xb4
  | CMD_UNUSED => 0x99

/-- The `enum Command`, enumerators in the order of the declaration. -/
inductive Command where
  | CMD_RESET
  | CMD_GOTO
  | CMD_GOTOCB
  | CMD_SLEEP
  | CMD_SETTEMP
  | CMD_WAITTEMP
  | CMD_READTEMP
  | CMD_READPOWER
  | CMD_SETPOS
  | CMD_GETPOS
  | CMD_LOAD
  | CMD_SAVE
  | CMD_READ_GLOBALS
  | CMD_WRITE_GLOBALS
  | CMD_READ_SPACE_INFO
  | CMD_READ_SPACE_AXIS
  | CMD_READ_SPACE_MOTOR
  | CMD_WRITE_SPACE_INFO
  | CMD_WRITE_SPACE_AXIS
  | CMD_WRITE_SPACE_MOTOR
  | CMD_READ_TEMP
  | CMD_WRITE_TEMP
  | CMD_READ_GPIO
  | CMD_WRITE_GPIO
  | CMD_QUEUED
  | CMD_READPIN
  | CMD_AUDIO_SETUP
  | CMD_AUDIO_DATA
  | CMD_TEMP
  | CMD_POWER
  | CMD_POS
  | CMD_DATA
  | CMD_PIN
  | CMD_QUEUE
  | CMD_MOVECB
  | CMD_TEMPCB
  | CMD_CONTINUE
  | CMD_LIMIT
  | CMD_AUTOSLEEP
  | CMD_SENSE
deriving DecidableEq

/-- The value of an enumerator of `Command`: none has an initialiser, so the
first is 0 and each next one is one more, which is its position in the
declaration. -/
def Command.val (c : Command) : Nat := c.toCtorIdx

/-- The constant `COMMAND_SIZE`. -/
def COMMAND_SIZE : Nat := 127

/-- The constant `COMMAND_LEN_MASK`. -/
def COMMAND_LEN_MASK : Nat := 0x7f

/-- The number of bit positions, among the eight of a byte, in which `a` and
`b` differ. -/
def bitDistance (a b : Nat) : Nat :=
  ((List.range 8).filter fun i => (a ^^^ b).testBit i).length

/-- The byte `x` with bit `i` flipped. -/
def flipBit (x i : Nat) : Nat := x ^^^ (1 <<< i)

/-! ## Pins (`cdriver.h`) -/

/-- The `struct Pin_t`; both fields are `uint8_t`. -/
structure Pin_t where
  flags : Nat
  pin : Nat
deriving DecidableEq

/-- The fields of a `Pin_t` are bytes. -/
def Pin_t.wf (p : Pin_t) : Prop := p.flags < 256 ∧ p.pin < 256

instance (p : Pin_t) : Decidable p.wf :=
  inferInstanceAs (Decidable (p.flags < 256 ∧ p.pin < 256))

/-- The method `valid()`: `flags & 1` as a `bool`. -/
def Pin_t.valid (p : Pin_t) : Bool := p.flags &&& 1 != 0

/-- The method `inverted()`: `flags & 2` as a `bool`. -/
def Pin_t.inverted (p : Pin_t) : Bool := p.flags &&& 2 != 0

/-- The method `write()`: `flags << 8 | pin`, returned as `uint16_t`. -/
def Pin_t.write (p : Pin_t) : Nat := (p.flags <<< 8 ||| p.pin) % 65536

/-- The method `init()`. -/
def Pin_t.init (_p : Pin_t) : Pin_t := { flags := 0, pin := 0 }

/-- The method `read(data)`.  The macro `SET_INPUT_NOPULLUP` and the constants
`NUM_DIGITAL_PINS` and `NUM_ANALOG_INPUTS` come from the architecture header,
which is not among the sources: they are inputs here, the macro as its effect
on the hardware state `H` for the pin it is given.  `~3` is taken on a 16 bit
`int`; `flags` has eight bits, so a wider `int` gives the same.  The result is
the pin and the hardware state afterwards. -/
def Pin_t.read {H : Type} (SET_INPUT_NOPULLUP : Pin_t → H → H)
    (NUM_DIGITAL_PINS NUM_ANALOG_INPUTS : Nat) (p : Pin_t) (hw : H) (data : Nat) :
    Pin_t × H :=
  let hw1 := if data &&& 0xff != p.pin then SET_INPUT_NOPULLUP p hw else hw
  let pin := (data &&& 0xff) % 256
  let flags := (data >>> 8) % 256
  if flags &&& 0xfffc != 0 || decide (pin ≥ NUM_DIGITAL_PINS + NUM_ANALOG_INPUTS) then
    ({ flags := 0, pin := 0 }, hw1)
  else
    ({ flags := flags, pin := pin }, hw1)

/-- A hardware state for examples: the pins that were made inputs, latest
first. -/
def exSetInput (p : Pin_t) (hw : List Nat) : List Nat := p.pin :: hw

/-! ## What one iteration of `reset_pos` leaves behind -/

/-- The motor entry `reset_pos` leaves for a motor `m`. -/
def Motor.reset (m : Motor) : Motor :=
  if isnan m.current_pos then { m with current_pos := F32.zero } else m

/-- The axis entry `reset_pos` leaves for an axis `ax` driven by motor `m`. -/
def Axis.reset (m : Motor) (ax : Axis) : Axis :=
  { ax with source := if isnan m.current_pos then F32.zero else m.current_pos }

/-- The Space after the iteration of `reset_pos` for axis `a`. -/
def Space.resetAt (s : Space) (a : Nat) (m : Motor) (ax : Axis) : Space :=
  { s with axis := s.axis.set a (Axis.reset m ax),
           motor := s.motor.set a (Motor.reset m) }

/-! ## Example data -/

/-- A store with every byte zero. -/
def Storage.blank : Storage := { eeprom := fun _ => 0, ram := fun _ => 0 }

/-- A store whose first bank holds the byte 4 at address 0 and the byte 3 at
address 12, every other byte zero. -/
def exStore43 : Storage := (write_8 (write_8 Storage.blank 0 4 true).1 12 3 true).1

/-- A motor at a known position. -/
def Motor.at (p : F32) : Motor := { Motor.fresh with current_pos := p }

/-- A Cartesian Space with two axes and two motors, the first motor at an
unknown position, the second at `1.0`. -/
def exCart22 : Space :=
  { type := 1, id := 0, type_data := none, max_deviation := F32.zero,
    num_axes := 2, num_motors := 2,
    motor := [Motor.fresh, Motor.at F32.one], axis := [Axis.fresh, Axis.fresh] }

/-- A Cartesian Space with two axes driving three motors. -/
def exCart23 : Space :=
  { exCart22 with num_motors := 3,
                  motor := [Motor.fresh, Motor.at F32.one, Motor.at F32.two] }

/-- An Extruder Space with two axes, two motors and offset `(1.0, 2.0, 0)`. -/
def exExtr22 : Space :=
  { exCart22 with type := 0,
                  type_data := some { dx := F32.one, dy := F32.two, dz := F32.zero } }

/-- An Extruder Space with one axis driving two motors. -/
def exExtr12 : Space :=
  { exExtr22 with num_axes := 1, axis := [Axis.fresh] }

/-! ## Lemmas on the loops -/

theorem xyz2motors_from_spec (xyz : List F32) :
    ∀ (k a : Nat) (motors : List F32), a + k ≤ xyz.length → a + k ≤ motors.length →
      ∃ m', xyz2motors_from xyz k a motors = some m' ∧ m'.length = motors.length ∧
        (∀ i, a ≤ i → i < a + k → m'[i]? = xyz[i]?) ∧
        (∀ i, (i < a ∨ a + k ≤ i) → m'[i]? = motors[i]?) := by
  intro k
  induction k with
  | zero =>
    intro a motors _ _
    refine ⟨motors, rfl, rfl, ?_, ?_⟩
    · intro i h1 h2; omega
    · intro i _; rfl
  | succ k ih =>
    intro a motors hx hm
    have hax : a < xyz.length := by omega
    have ham : a < motors.length := by omega
    obtain ⟨m', hrun, hlen, hin, hout⟩ :=
      ih (a + 1) (motors.set a xyz[a]) (by omega) (by simp; omega)
    refine ⟨m', ?_, ?_, ?_, ?_⟩
    · simp [xyz2motors_from, List.getElem?_eq_getElem hax, ham, hrun]
    · simpa using hlen
    · intro i h1 h2
      by_cases hia : i = a
      · subst hia
        rw [hout i (Or.inl (by omega)), List.getElem?_set_self ham,
          List.getElem?_eq_getElem hax]
      · exact hin i (by omega) (by omega)
    · intro i hi
      have hne : a ≠ i := by omega
      rw [hout i (by omega), List.getElem?_set_ne hne]

theorem set_same {α : Type} (l : List α) (i : Nat) (x : α) (h : l[i]? = some x) :
    l.set i x = l := by
  apply List.ext_getElem?
  intro j
  by_cases hij : i = j
  · subst hij
    rw [List.getElem?_set_self', h]
    rfl
  · rw [List.getElem?_set_ne hij]

theorem reset_pos_step_spec (a : Nat) (s : Space) (m : Motor) (ax : Axis)
    (hm : s.motor[a]? = some m) (hax : s.axis[a]? = some ax) :
    reset_pos_step a s = some (s.resetAt a m ax) := by
  unfold reset_pos_step Space.resetAt
  rw [hm, hax]
  by_cases hn : isnan m.current_pos = true
  · simp [hn, Motor.reset, Axis.reset]
  · simp only [hn, Motor.reset, Axis.reset]
    simp only [Bool.false_eq_true, if_false]
    rw [set_same s.motor a m hm]

theorem reset_pos_from_spec :
    ∀ (k a : Nat) (s : Space), a + k ≤ s.motor.length → a + k ≤ s.axis.length →
      ∃ s', reset_pos_from k a s = some s' ∧
        s'.num_axes = s.num_axes ∧ s'.num_motors = s.num_motors ∧
        s'.type_data = s.type_data ∧ s'.type = s.type ∧
        s'.motor.length = s.motor.length ∧ s'.axis.length = s.axis.length ∧
        (∀ i, a ≤ i → i < a + k → ∃ m ax, s.motor[i]? = some m ∧ s.axis[i]? = some ax ∧
          s'.motor[i]? = some (Motor.reset m) ∧ s'.axis[i]? = some (Axis.reset m ax)) ∧
        (∀ i, (i < a ∨ a + k ≤ i) →
          s'.motor[i]? = s.motor[i]? ∧ s'.axis[i]? = s.axis[i]?) := by
  intro k
  induction k with
  | zero =>
    intro a s _ _
    refine ⟨s, rfl, rfl, rfl, rfl, rfl, rfl, rfl, ?_, ?_⟩
    · intro i h1 h2; omega
    · intro i _; exact ⟨rfl, rfl⟩
  | succ k ih =>
    intro a s hm hax
    have ham : a < s.motor.length := by omega
    have haa : a < s.axis.length := by omega
    have hstep := reset_pos_step_spec a s s.motor[a] s.axis[a]
      (List.getElem?_eq_getElem ham) (List.getElem?_eq_getElem haa)
    obtain ⟨s', hrun, hna, hnm, htd, hty, hml, hal, hin, hout⟩ :=
      ih (a + 1) (s.resetAt a s.motor[a] s.axis[a])
        (by simp [Space.resetAt]; omega) (by simp [Space.resetAt]; omega)
    refine ⟨s', ?_, hna, hnm, htd, hty, by simpa [Space.resetAt] using hml,
      by simpa [Space.resetAt] using hal, ?_, ?_⟩
    · simp only [reset_pos_from, hstep]
      exact hrun
    · intro i h1 h2
      by_cases hia : i = a
      · subst hia
        refine ⟨s.motor[i], s.axis[i], List.getElem?_eq_getElem ham,
          List.getElem?_eq_getElem haa, ?_, ?_⟩
        · rw [(hout i (Or.inl (by omega))).1]
          exact List.getElem?_set_self ham
        · rw [(hout i (Or.inl (by omega))).2]
          exact List.getElem?_set_self haa
      · obtain ⟨m, ax, h1m, h1a, h2m, h2a⟩ := hin i (by omega) (by omega)
        have hne : a ≠ i := by omega
        simp only [Space.resetAt, List.getElem?_set_ne hne] at h1m h1a
        exact ⟨m, ax, h1m, h1a, h2m, h2a⟩
    · intro i hi
      have hne : a ≠ i := by omega
      have h := hout i (by omega)
      simp only [Space.resetAt, List.getElem?_set_ne hne] at h
      exact h

theorem isnan_zero : isnan F32.zero = false := by decide

/-! ## Lemmas on the store -/

theorem bank_put (st : Storage) (e e' : Bool) (a a' : Int) (b : Nat) :
    (st.put e a b).bank e' a' = if e' = e ∧ a' = a then b else st.bank e' a' := by
  by_cases h : a' = a <;> cases e <;> cases e' <;> simp [Storage.put, Storage.bank, h]

theorem write_8_bank (st : Storage) (e e' : Bool) (a a' : Int) (d : Nat) :
    (write_8 st a d e).1.bank e' a' =
      if e' = e ∧ a' = a then d % 256 else st.bank e' a' :=
  bank_put st e e' a a' (d % 256)

theorem int16_add (x k : Int) : int16 (int16 x + k) = int16 (x + k) := by
  unfold int16
  omega

theorem int16_inj (a j k : Int) (hj0 : 0 ≤ j) (hj : j < 65536) (hk0 : 0 ≤ k)
    (hk : k < 65536) : int16 (a + j) = int16 (a + k) ↔ j = k := by
  unfold int16
  omega

theorem int16_ne_self (a k : Int) (hk0 : 1 ≤ k) (hk : k < 65536) :
    a ≠ int16 (a + k) := by
  unfold int16
  omega

theorem int16_ne_self' (a k : Int) (hk0 : 1 ≤ k) (hk : k < 65536) :
    int16 (a + k) ≠ a := by
  unfold int16
  omega

theorem write_8_addr (st : Storage) (e : Bool) (a : Int) (d : Nat) :
    (write_8 st a d e).2 = int16 (a + 1) := rfl

theorem read_8_eq (st : Storage) (e : Bool) (a : Int) :
    read_8 st a e = (st.bank e a % 256, int16 (a + 1)) := rfl

theorem write_float_addr (st : Storage) (e : Bool) (a : Int) (x : F32) :
    (write_float st a x e).2 = int16 (a + 4) := by
  simp only [write_float, write_8_addr, int16_add, add_assoc, Int.reduceAdd]

theorem write_float_bank (st : Storage) (e e' : Bool) (a a' : Int) (x : F32) :
    (write_float st a x e).1.bank e' a' =
      if e' = e ∧ a' = int16 (a + 3) then x.val / 16777216 % 256
      else if e' = e ∧ a' = int16 (a + 2) then x.val / 65536 % 256
      else if e' = e ∧ a' = int16 (a + 1) then x.val / 256 % 256
      else if e' = e ∧ a' = a then x.val % 256
      else st.bank e' a' := by
  simp only [write_float, write_8_bank, write_8_addr, int16_add, add_assoc, Int.reduceAdd,
    Nat.mod_mod]

theorem read_float_eq (st : Storage) (e : Bool) (a : Int) :
    read_float st a e =
      (F32.ofBytes (st.bank e a % 256) (st.bank e (int16 (a + 1)) % 256)
        (st.bank e (int16 (a + 2)) % 256) (st.bank e (int16 (a + 3)) % 256),
       int16 (a + 4)) := by
  simp only [read_float, read_8_eq, int16_add, add_assoc, Int.reduceAdd]

theorem ofBytes_bytes (x : F32) :
    F32.ofBytes (x.val % 256) (x.val / 256 % 256) (x.val / 65536 % 256)
      (x.val / 16777216 % 256) = x := by
  apply Fin.ext
  have hx := x.isLt
  simp only [F32.ofBytes]
  omega

theorem esave_eq (s : Space) (d : ExtruderData) (st : Storage) (addr : Int) (e : Bool)
    (h : s.type_data = some d) :
    esave s st addr e =
      some (write_8 (write_float (write_float (write_float st addr d.dx e).1
        (int16 (addr + 4)) d.dy e).1 (int16 (addr + 8)) d.dz e).1
        (int16 (addr + 12)) s.num_axes e) := by
  simp only [esave, h, write_float_addr, int16_add, add_assoc, Int.reduceAdd]

theorem esave_read_dx (s : Space) (d : ExtruderData) (st : Storage) (addr : Int) (e : Bool) :
    (read_float (write_8 (write_float (write_float (write_float st addr d.dx e).1
        (int16 (addr + 4)) d.dy e).1 (int16 (addr + 8)) d.dz e).1
        (int16 (addr + 12)) s.num_axes e).1 addr e).1
      = d.dx := by
  simp [read_float_eq, write_8_bank, write_float_bank, int16_add, add_assoc, int16_inj,
    int16_ne_self, int16_ne_self', ofBytes_bytes]

theorem esave_read_dy (s : Space) (d : ExtruderData) (st : Storage) (addr : Int) (e : Bool) :
    (read_float (write_8 (write_float (write_float (write_float st addr d.dx e).1
        (int16 (addr + 4)) d.dy e).1 (int16 (addr + 8)) d.dz e).1
        (int16 (addr + 12)) s.num_axes e).1 (int16 (addr + 4)) e).1
      = d.dy := by
  simp [read_float_eq, read_8_eq, write_8_bank, write_float_bank, int16_add, add_assoc,
    int16_inj, int16_ne_self, int16_ne_self', ofBytes_bytes]

theorem esave_read_dz (s : Space) (d : ExtruderData) (st : Storage) (addr : Int) (e : Bool) :
    (read_float (write_8 (write_float (write_float (write_float st addr d.dx e).1
        (int16 (addr + 4)) d.dy e).1 (int16 (addr + 8)) d.dz e).1
        (int16 (addr + 12)) s.num_axes e).1 (int16 (addr + 8)) e).1
      = d.dz := by
  simp [read_float_eq, read_8_eq, write_8_bank, write_float_bank, int16_add, add_assoc,
    int16_inj, int16_ne_self, int16_ne_self', ofBytes_bytes]

theorem esave_read_num (s : Space) (d : ExtruderData) (st : Storage) (addr : Int) (e : Bool) :
    (read_8 (write_8 (write_float (write_float (write_float st addr d.dx e).1
        (int16 (addr + 4)) d.dy e).1 (int16 (addr + 8)) d.dz e).1
        (int16 (addr + 12)) s.num_axes e).1 (int16 (addr + 12)) e).1
      = s.num_axes % 256 := by
  simp [read_8_eq, write_8_bank]

theorem esave_read_first (s : Space) (d : ExtruderData) (st : Storage) (addr : Int) (e : Bool) :
    (read_8 (write_8 (write_float (write_float (write_float st addr d.dx e).1
        (int16 (addr + 4)) d.dy e).1 (int16 (addr + 8)) d.dz e).1
        (int16 (addr + 12)) s.num_axes e).1 addr e).1
      = d.dx.val % 256 := by
  simp [read_float_eq, read_8_eq, write_8_bank, write_float_bank, int16_add, add_assoc,
    int16_inj, int16_ne_self, int16_ne_self', ofBytes_bytes]

theorem esave_cursor (s : Space) (d : ExtruderData) (st : Storage) (addr : Int) (e : Bool) :
    (write_8 (write_float (write_float (write_float st addr d.dx e).1
        (int16 (addr + 4)) d.dy e).1 (int16 (addr + 8)) d.dz e).1
        (int16 (addr + 12)) s.num_axes e).2
      = int16 (addr + 13) := by
  simp only [write_8_addr, int16_add, add_assoc, Int.reduceAdd]

theorem write_8_frame (st : Storage) (e e' : Bool) (a a' : Int) (d : Nat)
    (h : e' ≠ e ∨ a' ≠ a) : (write_8 st a d e).1.bank e' a' = st.bank e' a' := by
  rw [write_8_bank, if_neg]
  rintro ⟨he, ha⟩
  rcases h with h | h
  · exact h he
  · exact h ha

theorem write_float_frame (st : Storage) (e e' : Bool) (a a' : Int) (x : F32)
    (h : e' ≠ e ∨ (a' ≠ a ∧ a' ≠ int16 (a + 1) ∧ a' ≠ int16 (a + 2) ∧ a' ≠ int16 (a + 3))) :
    (write_float st a x e).1.bank e' a' = st.bank e' a' := by
  have key : ∀ b : Int, a' ≠ b ∨ e' ≠ e → ¬ (e' = e ∧ a' = b) := by
    rintro b hb ⟨he, ha⟩
    rcases hb with hb | hb
    · exact hb ha
    · exact hb he
  rw [write_float_bank]
  rcases h with h | ⟨h0, h1, h2, h3⟩
  · rw [if_neg (key _ (Or.inr h)), if_neg (key _ (Or.inr h)), if_neg (key _ (Or.inr h)),
      if_neg (key _ (Or.inr h))]
  · rw [if_neg (key _ (Or.inl h3)), if_neg (key _ (Or.inl h2)), if_neg (key _ (Or.inl h1)),
      if_neg (key _ (Or.inl h0))]

theorem esave_frame (s : Space) (d : ExtruderData) (st : Storage) (addr : Int) (e e' : Bool)
    (a : Int)
    (h : e' ≠ e ∨ (a ≠ addr ∧ ∀ k : Int, 1 ≤ k → k < 13 → a ≠ int16 (addr + k))) :
    (write_8 (write_float (write_float (write_float st addr d.dx e).1
        (int16 (addr + 4)) d.dy e).1 (int16 (addr + 8)) d.dz e).1
        (int16 (addr + 12)) s.num_axes e).1.bank e' a
      = st.bank e' a := by
  rcases h with h | ⟨h0, hk⟩
  · rw [write_8_frame _ _ _ _ _ _ (Or.inl h), write_float_frame _ _ _ _ _ _ (Or.inl h),
      write_float_frame _ _ _ _ _ _ (Or.inl h), write_float_frame _ _ _ _ _ _ (Or.inl h)]
  · have f1 : a ≠ addr ∧ a ≠ int16 (addr + 1) ∧ a ≠ int16 (addr + 2) ∧
        a ≠ int16 (addr + 3) :=
      ⟨h0, hk 1 (by omega) (by omega), hk 2 (by omega) (by omega),
        hk 3 (by omega) (by omega)⟩
    have f2 : a ≠ int16 (addr + 4) ∧ a ≠ int16 (int16 (addr + 4) + 1) ∧
        a ≠ int16 (int16 (addr + 4) + 2) ∧ a ≠ int16 (int16 (addr + 4) + 3) := by
      simpa only [int16_add, add_assoc, Int.reduceAdd] using
        (⟨hk 4 (by omega) (by omega), hk 5 (by omega) (by omega),
          hk 6 (by omega) (by omega), hk 7 (by omega) (by omega)⟩ :
          a ≠ int16 (addr + 4) ∧ a ≠ int16 (addr + 5) ∧ a ≠ int16 (addr + 6) ∧
            a ≠ int16 (addr + 7))
    have f3 : a ≠ int16 (addr + 8) ∧ a ≠ int16 (int16 (addr + 8) + 1) ∧
        a ≠ int16 (int16 (addr + 8) + 2) ∧ a ≠ int16 (int16 (addr + 8) + 3) := by
      simpa only [int16_add, add_assoc, Int.reduceAdd] using
        (⟨hk 8 (by omega) (by omega), hk 9 (by omega) (by omega),
          hk 10 (by omega) (by omega), hk 11 (by omega) (by omega)⟩ :
          a ≠ int16 (addr + 8) ∧ a ≠ int16 (addr + 9) ∧ a ≠ int16 (addr + 10) ∧
            a ≠ int16 (addr + 11))
    rw [write_8_frame _ _ _ _ _ _ (Or.inr (hk 12 (by omega) (by omega))),
      write_float_frame _ _ _ _ _ _ (Or.inr f3), write_float_frame _ _ _ _ _ _ (Or.inr f2),
      write_float_frame _ _ _ _ _ _ (Or.inr f1)]

theorem setup_nums_ok (s : Space) (na nm : Nat) :
    (setup_nums true s na nm).1 = true ∧
      (setup_nums true s na nm).2.num_axes = na ∧
      (setup_nums true s na nm).2.num_motors = nm ∧
      (setup_nums true s na nm).2.type_data = s.type_data := by
  simp [setup_nums]

theorem setup_nums_wf (s : Space) (na nm : Nat) (ha : na < 256) (hm : nm < 256) :
    (setup_nums true s na nm).2.wf := by
  simp only [setup_nums, Space.wf, resize, if_true, List.length_append, List.length_take,
    List.length_replicate]
  omega

theorem setup_nums_fail (s : Space) (na nm : Nat) :
    setup_nums false s na nm = (false, s) := by
  simp [setup_nums]

theorem eload_eq (mem_ok : Bool) (s : Space) (d : ExtruderData) (old_type : Nat)
    (st : Storage) (addr : Int) (e : Bool) (h : s.type_data = some d) :
    eload mem_ok s old_type st addr e =
      some { space := (setup_nums mem_ok
                { s with type_data := some { dx := (read_float st addr e).1,
                                             dy := (read_float st (int16 (addr + 4)) e).1,
                                             dz := (read_float st (int16 (addr + 8)) e).1 } }
                (read_8 st (int16 (addr + 12)) e).1 (read_8 st (int16 (addr + 12)) e).1).2,
             addr := int16 (addr + 13),
             debug := if mem_ok then [] else ["Failed to set up cartesian axes"] } := by
  cases mem_ok <;>
    simp [eload, h, read_float_eq, read_8_eq, setup_nums, int16_add, add_assoc]

theorem xyz2motors_spec (s : Space) (xyz motors : List F32) (ok : Bool)
    (hx : s.num_axes ≤ xyz.length) (hm : s.num_axes ≤ motors.length) :
    ∃ motors', xyz2motors s xyz motors ok = some (motors', ok) ∧
      ∀ i, i < s.num_axes → ∃ v, xyz[i]? = some v ∧ motors'[i]? = some v := by
  obtain ⟨m', hrun, _, hin, _⟩ :=
    xyz2motors_from_spec xyz s.num_axes 0 motors (by omega) (by omega)
  refine ⟨m', by simp [xyz2motors, hrun], ?_⟩
  intro i hi
  have hix : i < xyz.length := by omega
  exact ⟨xyz[i], List.getElem?_eq_getElem hix,
    by rw [hin i (by omega) (by omega), List.getElem?_eq_getElem hix]⟩

theorem xyz2motors_frame (s : Space) (xyz motors : List F32) (ok : Bool)
    (hx : s.num_axes ≤ xyz.length) (hm : s.num_axes ≤ motors.length) :
    ∃ motors', xyz2motors s xyz motors ok = some (motors', ok) ∧
      motors'.length = motors.length ∧
      ∀ j, s.num_axes ≤ j → motors'[j]? = motors[j]? := by
  obtain ⟨m', hrun, hlen, _, hout⟩ :=
    xyz2motors_from_spec xyz s.num_axes 0 motors (by omega) (by omega)
  refine ⟨m', by simp [xyz2motors, hrun], hlen, ?_⟩
  intro j hj
  exact hout j (Or.inr (by omega))

theorem load_eq (mem_ok : Bool) (s : Space) (old_type : Nat) (st : Storage) (addr : Int)
    (e : Bool) :
    load mem_ok s old_type st addr e =
      { space := (setup_nums mem_ok s (read_8 st addr e).1 (read_8 st addr e).1).2,
        addr := int16 (addr + 1),
        debug := if mem_ok then [] else ["Failed to set up cartesian axes"] } := by
  cases mem_ok <;> simp [load, read_8_eq, setup_nums]

theorem read_8_lt (st : Storage) (addr : Int) (e : Bool) : (read_8 st addr e).1 < 256 := by
  simp only [read_8_eq]
  exact Nat.mod_lt _ (by decide)

theorem reset_pos_runs (s : Space) (h : s.wf) (hle : s.num_axes ≤ s.num_motors) :
    ∃ s', reset_pos s = some s' := by
  obtain ⟨_, _, hal, hml⟩ := h
  obtain ⟨s', hrun, _⟩ := reset_pos_from_spec s.num_axes 0 s (by omega) (by omega)
  exact ⟨s', hrun⟩

theorem reset_pos_reads (s : Space) (h : s.wf) (hle : s.num_axes ≤ s.num_motors) :
    ∃ s', reset_pos s = some s' ∧
      ∀ a, a < s.num_axes → ∃ m ax',
        a < s.num_motors ∧ s.motor[a]? = some m ∧ s'.axis[a]? = some ax' ∧
        s'.motor[a]? = some (Motor.reset m) ∧
        ax'.source = (Motor.reset m).current_pos ∧ isnan ax'.source = false := by
  obtain ⟨_, _, hal, hml⟩ := h
  obtain ⟨s', hrun, _, _, _, _, _, _, hin, _⟩ :=
    reset_pos_from_spec s.num_axes 0 s (by omega) (by omega)
  refine ⟨s', hrun, ?_⟩
  intro a ha
  obtain ⟨m, ax, h1m, _, h2m, h2a⟩ := hin a (by omega) (by omega)
  refine ⟨m, Axis.reset m ax, by omega, h1m, h2a, h2m, ?_, ?_⟩
  · by_cases hn : isnan m.current_pos = true
    · simp [Axis.reset, Motor.reset, hn]
    · simp [Axis.reset, Motor.reset, hn]
  · by_cases hn : isnan m.current_pos = true
    · simp [Axis.reset, hn, isnan_zero]
    · simp [Axis.reset, hn]

theorem and_fffc (f : Nat) (h : f < 256) : (f &&& 0xfffc != 0) = decide (4 ≤ f) := by
  interval_cases f <;> rfl

theorem and_fffc_small (f : Nat) (h : f ≤ 3) : f &&& 0xfffc = 0 := by
  interval_cases f <;> rfl

theorem and_one_small (f : Nat) (h : f ≤ 3) : (f &&& 1 != 0) = decide (f % 2 = 1) := by
  interval_cases f <;> rfl

theorem and_ff (data : Nat) : data &&& 0xff = data % 256 :=
  Nat.and_pow_two_sub_one_eq_mod data 8

theorem shr_8 (data : Nat) : data >>> 8 = data / 256 :=
  Nat.shiftRight_eq_div_pow data 8

theorem Pin_t.write_eq (p : Pin_t) (h : p.wf) : p.write = p.flags * 256 + p.pin := by
  obtain ⟨hf, hp⟩ := h
  have hor : 2 ^ 8 * p.flags + p.pin = 2 ^ 8 * p.flags ||| p.pin :=
    Nat.mul_add_lt_is_or (by simpa using hp) p.flags
  unfold Pin_t.write
  rw [Nat.shiftLeft_eq, Nat.mul_comm, ← hor]
  omega

theorem Pin_t.read_eq {H : Type} (S : Pin_t → H → H) (nd na : Nat) (p : Pin_t) (hw : H)
    (data : Nat) :
    Pin_t.read S nd na p hw data =
      (if 4 ≤ data / 256 % 256 ∨ nd + na ≤ data % 256 then { flags := 0, pin := 0 }
        else { flags := data / 256 % 256, pin := data % 256 },
       if data % 256 ≠ p.pin then S p hw else hw) := by
  have hm : data / 256 % 256 < 256 := Nat.mod_lt _ (by decide)
  unfold Pin_t.read
  simp only [and_ff, shr_8, and_fffc _ hm, Nat.mod_mod]
  by_cases h1 : 4 ≤ data / 256 % 256 <;> by_cases h2 : nd + na ≤ data % 256 <;>
    simp [h1, h2]

/-! ## Claims -/

/-- C1: for every Space and every position vector (both arrays holding at least
`num_axes` entries), `xyz2motors` succeeds, and afterwards `motors[i]` is
`xyz[i]` for every axis index `i < num_axes`. -/
theorem C1_xyz2motors_identity (s : Space) (xyz motors : List F32) (ok : Bool)
    (hx : s.num_axes ≤ xyz.length) (hm : s.num_axes ≤ motors.length) :
    ∃ motors' ok', xyz2motors s xyz motors ok = some (motors', ok') ∧
      ∀ i, i < s.num_axes → ∃ v, xyz[i]? = some v ∧ motors'[i]? = some v := by
  obtain ⟨m', hrun, hid⟩ := xyz2motors_spec s xyz motors ok hx hm
  exact ⟨m', ok, hrun, hid⟩

/-- Witness of C1 on a two-axis Space. -/
theorem C1_xyz2motors_identity_witness :
    exCart22.num_axes ≤ [F32.one, F32.two].length ∧
    exCart22.num_axes ≤ [F32.zero, F32.zero, F32.nan].length ∧
    ∃ motors' ok', xyz2motors exCart22 [F32.one, F32.two] [F32.zero, F32.zero, F32.nan] true
        = some (motors', ok') ∧
      ∀ i, i < exCart22.num_axes →
        ∃ v, [F32.one, F32.two][i]? = some v ∧ motors'[i]? = some v :=
  ⟨by decide, by decide,
    C1_xyz2motors_identity exCart22 [F32.one, F32.two] [F32.zero, F32.zero, F32.nan] true
      (by decide) (by decide)⟩

/-- C2: for every Space whose axes each have a motor and whatever the motor
positions are (NaN or known), `reset_pos` succeeds and afterwards no axis
`a < num_axes` has a NaN logical source. -/
theorem C2_reset_pos_no_nan_source (s : Space)
    (hax : s.num_axes ≤ s.axis.length) (hmo : s.num_axes ≤ s.motor.length) :
    ∃ s', reset_pos s = some s' ∧
      ∀ a, a < s.num_axes → ∃ ax', s'.axis[a]? = some ax' ∧ isnan ax'.source = false := by
  obtain ⟨s', hrun, _, _, _, _, _, _, hin, _⟩ :=
    reset_pos_from_spec s.num_axes 0 s (by omega) (by omega)
  refine ⟨s', hrun, ?_⟩
  intro a ha
  obtain ⟨m, ax, _, _, _, h2a⟩ := hin a (by omega) (by omega)
  refine ⟨Axis.reset m ax, h2a, ?_⟩
  by_cases hn : isnan m.current_pos = true
  · simp [Axis.reset, hn, isnan_zero]
  · simp [Axis.reset, hn]

/-- Witness of C2: a Space whose first motor position is NaN. -/
theorem C2_reset_pos_no_nan_source_witness :
    exCart22.num_axes ≤ exCart22.axis.length ∧ exCart22.num_axes ≤ exCart22.motor.length ∧
    ∃ s', reset_pos exCart22 = some s' ∧
      ∀ a, a < exCart22.num_axes →
        ∃ ax', s'.axis[a]? = some ax' ∧ isnan ax'.source = false :=
  ⟨by decide, by decide, C2_reset_pos_no_nan_source exCart22 (by decide) (by decide)⟩

/-- C3: `reset_pos` acts per axis `a < num_axes`: when `motor[a].current_pos` is
NaN on entry, on exit `axis[a].source` and `motor[a].current_pos` are both `0`;
otherwise `axis[a].source` is the entry value of `motor[a].current_pos`, which is
unchanged.  In both cases `axis[a].source` is `motor[a].current_pos` afterwards. -/
theorem C3_reset_pos_per_axis (s : Space)
    (hax : s.num_axes ≤ s.axis.length) (hmo : s.num_axes ≤ s.motor.length) :
    ∃ s', reset_pos s = some s' ∧
      ∀ a, a < s.num_axes → ∃ m m' ax',
        s.motor[a]? = some m ∧ s'.motor[a]? = some m' ∧ s'.axis[a]? = some ax' ∧
        (isnan m.current_pos = true →
          ax'.source = F32.zero ∧ m'.current_pos = F32.zero) ∧
        (isnan m.current_pos = false →
          ax'.source = m.current_pos ∧ m'.current_pos = m.current_pos) ∧
        ax'.source = m'.current_pos := by
  obtain ⟨s', hrun, _, _, _, _, _, _, hin, _⟩ :=
    reset_pos_from_spec s.num_axes 0 s (by omega) (by omega)
  refine ⟨s', hrun, ?_⟩
  intro a ha
  obtain ⟨m, ax, h1m, _, h2m, h2a⟩ := hin a (by omega) (by omega)
  refine ⟨m, Motor.reset m, Axis.reset m ax, h1m, h2m, h2a, ?_, ?_, ?_⟩
  · intro hn; simp [Axis.reset, Motor.reset, hn]
  · intro hn; simp [Axis.reset, Motor.reset, hn]
  · by_cases hn : isnan m.current_pos = true
    · simp [Axis.reset, Motor.reset, hn]
    · simp [Axis.reset, Motor.reset, hn]

/-- Witness of C3: one motor at NaN, one at `1.0`. -/
theorem C3_reset_pos_per_axis_witness :
    exCart22.num_axes ≤ exCart22.axis.length ∧ exCart22.num_axes ≤ exCart22.motor.length ∧
    ∃ s', reset_pos exCart22 = some s' ∧
      ∀ a, a < exCart22.num_axes → ∃ m m' ax',
        exCart22.motor[a]? = some m ∧ s'.motor[a]? = some m' ∧ s'.axis[a]? = some ax' ∧
        (isnan m.current_pos = true →
          ax'.source = F32.zero ∧ m'.current_pos = F32.zero) ∧
        (isnan m.current_pos = false →
          ax'.source = m.current_pos ∧ m'.current_pos = m.current_pos) ∧
        ax'.source = m'.current_pos :=
  ⟨by decide, by decide, C3_reset_pos_per_axis exCart22 (by decide) (by decide)⟩

/-- C4, amended: saving a Cartesian Space `s` and loading the same store from
the same address (into any Space `t`, with `setup_nums` succeeding) gives
`num_axes` equal to that of `s` and `num_motors` equal to `num_axes` of `s`; the
motor count is that of `s` exactly when `s` has as many motors as axes. -/
theorem C4_cartesian_roundtrip_counts (s t : Space) (old_type : Nat) (st : Storage)
    (addr : Int) (eeprom : Bool) (hs : s.num_axes < 256) :
    (setup_nums true t s.num_axes s.num_axes).1 = true ∧
    (load true t old_type (save s st addr eeprom).1 addr eeprom).space.num_axes
      = s.num_axes ∧
    (load true t old_type (save s st addr eeprom).1 addr eeprom).space.num_motors
      = s.num_axes ∧
    ((load true t old_type (save s st addr eeprom).1 addr eeprom).space.num_motors
      = s.num_motors ↔ s.num_motors = s.num_axes) := by
  have hmod : s.num_axes % 256 = s.num_axes := Nat.mod_eq_of_lt hs
  simp only [load, save, read_8_eq, write_8_bank, setup_nums, and_self, if_true,
    Nat.mod_mod, hmod, Bool.not_true, Bool.false_eq_true, if_false, true_and]
  exact eq_comm

/-- Witness of C4 on a Space with two axes and three motors. -/
theorem C4_cartesian_roundtrip_counts_witness :
    exCart23.num_axes < 256 ∧
    (setup_nums true exCart22 exCart23.num_axes exCart23.num_axes).1 = true ∧
    (load true exCart22 1 (save exCart23 Storage.blank 7 true).1 7 true).space.num_axes
      = exCart23.num_axes ∧
    (load true exCart22 1 (save exCart23 Storage.blank 7 true).1 7 true).space.num_motors
      = exCart23.num_axes ∧
    ((load true exCart22 1 (save exCart23 Storage.blank 7 true).1 7 true).space.num_motors
      = exCart23.num_motors ↔ exCart23.num_motors = exCart23.num_axes) :=
  ⟨by decide, C4_cartesian_roundtrip_counts exCart23 exCart22 1 Storage.blank 7 true (by decide)⟩

/-- C4 as stated fails: a well-formed Cartesian Space with two axes and three
motors comes back from `save` then `load` (with `setup_nums` succeeding) with two
motors. -/
theorem C4_counterexample_motor_count :
    exCart23.wf ∧ (setup_nums true exCart23 2 2).1 = true ∧
    (load true exCart23 1 (save exCart23 Storage.blank 0 true).1 0 true).space.num_motors = 2 ∧
    exCart23.num_motors = 3 ∧
    ¬ ((load true exCart23 1 (save exCart23 Storage.blank 0 true).1 0 true).space.num_axes
          = exCart23.num_axes ∧
       (load true exCart23 1 (save exCart23 Storage.blank 0 true).1 0 true).space.num_motors
          = exCart23.num_motors) := by
  decide

/-- C5, amended: saving an Extruder Space `s` with offset vector `d` and loading
the same store from the same address (into any Extruder Space `t`, with
`setup_nums` succeeding) gives back the offset vector `d`, `num_axes` equal to
that of `s` and `num_motors` equal to `num_axes` of `s`. -/
theorem C5_extruder_roundtrip (s t : Space) (d d0 : ExtruderData) (old_type : Nat)
    (st : Storage) (addr : Int) (eeprom : Bool)
    (hs : s.type_data = some d) (ht : t.type_data = some d0) (hn : s.num_axes < 256) :
    ∃ w r, esave s st addr eeprom = some w ∧
      eload true t old_type w.1 addr eeprom = some r ∧
      r.debug = [] ∧
      r.space.type_data = some d ∧
      r.space.num_axes = s.num_axes ∧ r.space.num_motors = s.num_axes := by
  have hmod : s.num_axes % 256 = s.num_axes := Nat.mod_eq_of_lt hn
  refine ⟨_, _, esave_eq s d st addr eeprom hs, eload_eq true t d0 old_type _ addr eeprom ht,
    rfl, ?_, ?_, ?_⟩
  · simp only [(setup_nums_ok _ _ _).2.2.2, esave_read_dx, esave_read_dy, esave_read_dz]
  · simp only [(setup_nums_ok _ _ _).2.1, esave_read_num, hmod]
  · simp only [(setup_nums_ok _ _ _).2.2.1, esave_read_num, hmod]

/-- Witness of C5 on a Space with offset `(1.0, 2.0, 0)` and two axes. -/
theorem C5_extruder_roundtrip_witness :
    exExtr22.type_data = some { dx := F32.one, dy := F32.two, dz := F32.zero } ∧
    exExtr12.type_data = some { dx := F32.one, dy := F32.two, dz := F32.zero } ∧
    exExtr22.num_axes < 256 ∧
    ∃ w r, esave exExtr22 Storage.blank 0 false = some w ∧
      eload true exExtr12 0 w.1 0 false = some r ∧
      r.debug = [] ∧
      r.space.type_data = some { dx := F32.one, dy := F32.two, dz := F32.zero } ∧
      r.space.num_axes = exExtr22.num_axes ∧ r.space.num_motors = exExtr22.num_axes :=
  ⟨rfl, rfl, by decide,
    C5_extruder_roundtrip exExtr22 exExtr12 _ _ 0 Storage.blank 0 false rfl rfl (by decide)⟩

/-- C5 as stated fails: a well-formed Extruder Space with one axis and two motors
comes back from `esave` then `eload` (with `setup_nums` succeeding) with one
motor. -/
theorem C5_counterexample_motor_count :
    exExtr12.wf ∧
    ∃ w r, esave exExtr12 Storage.blank 0 true = some w ∧
      eload true exExtr12 0 w.1 0 true = some r ∧
      r.debug = [] ∧ r.space.num_motors = 1 ∧ exExtr12.num_motors = 2 ∧
      ¬ (r.space.num_axes = exExtr12.num_axes ∧ r.space.num_motors = exExtr12.num_motors) := by
  refine ⟨by decide, _, _, rfl, rfl, rfl, ?_, ?_, ?_⟩
  · decide
  · decide
  · decide

/-- C6, amended: when `setup_nums` returns false (and leaves the Space as it
found it), the Cartesian `load` leaves the whole Space as it was, and `eload`
leaves `num_axes` and `num_motors` (and every field but the payload) as they
were, while `dx`, `dy`, `dz` already hold the three floats read from the
store.  Both report the failure on the debug channel. -/
theorem C6_load_failure_keeps_counts (c s : Space) (d : ExtruderData) (old_type : Nat)
    (st : Storage) (addr : Int) (eeprom : Bool) (hs : s.type_data = some d) :
    (load false c old_type st addr eeprom).space = c ∧
    (load false c old_type st addr eeprom).debug = ["Failed to set up cartesian axes"] ∧
    ∃ r, eload false s old_type st addr eeprom = some r ∧
      r.debug = ["Failed to set up cartesian axes"] ∧
      r.space = { s with
        type_data := some { dx := (read_float st addr eeprom).1,
                            dy := (read_float st (int16 (addr + 4)) eeprom).1,
                            dz := (read_float st (int16 (addr + 8)) eeprom).1 } } ∧
      r.space.num_axes = s.num_axes ∧ r.space.num_motors = s.num_motors := by
  refine ⟨by simp [load, setup_nums], by simp [load, setup_nums], _,
    eload_eq false s d old_type st addr eeprom hs, by simp, ?_, ?_, ?_⟩
  · simp only [setup_nums_fail]
  · simp only [setup_nums_fail]
  · simp only [setup_nums_fail]

/-- Witness of C6: a Cartesian Space with two axes and three motors and an
Extruder Space with two axes, on a store whose count bytes are 4 and 3. -/
theorem C6_load_failure_keeps_counts_witness :
    exExtr22.type_data = some { dx := F32.one, dy := F32.two, dz := F32.zero } ∧
    (load false exCart23 1 exStore43 0 true).space = exCart23 ∧
    (load false exCart23 1 exStore43 0 true).debug = ["Failed to set up cartesian axes"] ∧
    ∃ r, eload false exExtr22 1 exStore43 0 true = some r ∧
      r.debug = ["Failed to set up cartesian axes"] ∧
      r.space = { exExtr22 with
        type_data := some { dx := (read_float exStore43 0 true).1,
                            dy := (read_float exStore43 (int16 (0 + 4)) true).1,
                            dz := (read_float exStore43 (int16 (0 + 8)) true).1 } } ∧
      r.space.num_axes = exExtr22.num_axes ∧ r.space.num_motors = exExtr22.num_motors :=
  ⟨rfl, C6_load_failure_keeps_counts exCart23 exExtr22 _ 1 exStore43 0 true rfl⟩

/-- C6 as stated fails for the Extruder calibration: `eload` on a Space with
offset `(1.0, 2.0, 0)` and a blank store, with `setup_nums` failing, reports the
failure and leaves the offset `(0, 0, 0)`. -/
theorem C6_counterexample_eload_overwrites :
    (setup_nums false exExtr22 0 0).1 = false ∧
    ∃ r, eload false exExtr22 0 Storage.blank 0 true = some r ∧
      r.debug ≠ [] ∧
      r.space.type_data = some { dx := F32.zero, dy := F32.zero, dz := F32.zero } ∧
      r.space.type_data ≠ exExtr22.type_data := by
  refine ⟨rfl, _, rfl, ?_, ?_, ?_⟩
  · decide
  · decide
  · decide

/-- C7, amended: the Cartesian `load` does not look at `old_type`; it takes both
counts from the byte at the start address.  On a store written by `esave` that
byte is the least significant byte of `dx`, so both counts are that byte and
not the count `esave` stored (which lies twelve bytes further). -/
theorem C7_load_takes_first_byte (s t : Space) (d : ExtruderData) (old_type : Nat)
    (st : Storage) (addr : Int) (eeprom : Bool) (hs : s.type_data = some d) :
    ∃ w, esave s st addr eeprom = some w ∧
      (load true t old_type w.1 addr eeprom).space.num_axes = d.dx.val % 256 ∧
      (load true t old_type w.1 addr eeprom).space.num_motors = d.dx.val % 256 ∧
      (read_8 w.1 (int16 (addr + 12)) eeprom).1 = s.num_axes % 256 ∧
      ∀ o, load true t o w.1 addr eeprom = load true t old_type w.1 addr eeprom := by
  refine ⟨_, esave_eq s d st addr eeprom hs, ?_, ?_, esave_read_num s d st addr eeprom, ?_⟩
  · simp only [load, (setup_nums_ok _ _ _).2.1, (setup_nums_ok _ _ _).1, esave_read_first,
      Bool.not_true, Bool.false_eq_true, if_false]
  · simp only [load, (setup_nums_ok _ _ _).2.2.1, (setup_nums_ok _ _ _).1, esave_read_first,
      Bool.not_true, Bool.false_eq_true, if_false]
  · intro o; rfl

/-- Witness of C7 on an Extruder Space with `dx = 1.0`. -/
theorem C7_load_takes_first_byte_witness :
    exExtr22.type_data = some { dx := F32.one, dy := F32.two, dz := F32.zero } ∧
    ∃ w, esave exExtr22 Storage.blank 0 true = some w ∧
      (load true exCart22 0 w.1 0 true).space.num_axes = F32.one.val % 256 ∧
      (load true exCart22 0 w.1 0 true).space.num_motors = F32.one.val % 256 ∧
      (read_8 w.1 (int16 (0 + 12)) true).1 = exExtr22.num_axes % 256 ∧
      ∀ o, load true exCart22 o w.1 0 true = load true exCart22 0 w.1 0 true :=
  ⟨rfl, C7_load_takes_first_byte exExtr22 exCart22 _ 0 Storage.blank 0 true rfl⟩

/-- C7 as stated fails: a two-axis Extruder Space with `dx = 1.0` is saved with
`esave`; the Cartesian `load` run on that store from the same address with
`old_type` 0 (Extruder), `setup_nums` succeeding, yields zero axes and zero
motors. -/
theorem C7_counterexample_migration :
    exExtr22.wf ∧ exExtr22.num_axes = 2 ∧ exExtr22.num_motors = 2 ∧
    ∃ w, esave exExtr22 Storage.blank 0 true = some w ∧
      (load true exCart22 0 w.1 0 true).debug = [] ∧
      (load true exCart22 0 w.1 0 true).space.num_axes = 0 ∧
      (load true exCart22 0 w.1 0 true).space.num_motors = 0 := by
  refine ⟨by decide, rfl, rfl, _, rfl, ?_, ?_, ?_⟩
  · decide
  · decide
  · decide

/-- C8: `esave` puts `dx` at the start address, `dy` four bytes on, `dz` eight
bytes on and the count byte twelve bytes on, moves the cursor thirteen bytes on
and touches no other byte; `eload` takes `dx`, `dy`, `dz` and the count from
those same places, in the same order.  The cursor is an `int16_t`, so "on" is
in its arithmetic; where the cursor does not pass 32767 the places are
start + 4, start + 8, start + 12 and start + 13. -/
theorem C8_extruder_field_order (s t : Space) (d d0 : ExtruderData) (old_type : Nat)
    (st st' : Storage) (addr : Int) (eeprom : Bool)
    (hs : s.type_data = some d) (ht : t.type_data = some d0) :
    (∃ w, esave s st addr eeprom = some w ∧ w.2 = int16 (addr + 13) ∧
      (read_float w.1 addr eeprom).1 = d.dx ∧
      (read_float w.1 (int16 (addr + 4)) eeprom).1 = d.dy ∧
      (read_float w.1 (int16 (addr + 8)) eeprom).1 = d.dz ∧
      (read_8 w.1 (int16 (addr + 12)) eeprom).1 = s.num_axes % 256 ∧
      ∀ e' a, (e' ≠ eeprom ∨ (a ≠ addr ∧ ∀ k : Int, 1 ≤ k → k < 13 → a ≠ int16 (addr + k))) →
        w.1.bank e' a = st.bank e' a) ∧
    (∃ r, eload true t old_type st' addr eeprom = some r ∧ r.addr = int16 (addr + 13) ∧
      r.space.type_data = some { dx := (read_float st' addr eeprom).1,
                                 dy := (read_float st' (int16 (addr + 4)) eeprom).1,
                                 dz := (read_float st' (int16 (addr + 8)) eeprom).1 } ∧
      r.space.num_axes = (read_8 st' (int16 (addr + 12)) eeprom).1 ∧
      r.space.num_motors = (read_8 st' (int16 (addr + 12)) eeprom).1) ∧
    (-32768 ≤ addr → addr + 13 ≤ 32767 →
      int16 (addr + 4) = addr + 4 ∧ int16 (addr + 8) = addr + 8 ∧
      int16 (addr + 12) = addr + 12 ∧ int16 (addr + 13) = addr + 13) := by
  refine ⟨?_, ?_, ?_⟩
  · refine ⟨_, esave_eq s d st addr eeprom hs, esave_cursor s d st addr eeprom,
      esave_read_dx s d st addr eeprom, esave_read_dy s d st addr eeprom,
      esave_read_dz s d st addr eeprom, esave_read_num s d st addr eeprom, ?_⟩
    intro e' a h
    exact esave_frame s d st addr eeprom e' a h
  · refine ⟨_, eload_eq true t d0 old_type st' addr eeprom ht, rfl, ?_, ?_, ?_⟩
    · simp only [(setup_nums_ok _ _ _).2.2.2]
    · simp only [(setup_nums_ok _ _ _).2.1]
    · simp only [(setup_nums_ok _ _ _).2.2.1]
  · intro hlo hhi
    unfold int16
    omega

/-- Witness of C8: saving from address 32760 of the second bank, where the
cursor wraps. -/
theorem C8_extruder_field_order_witness :
    exExtr22.type_data = some { dx := F32.one, dy := F32.two, dz := F32.zero } ∧
    exExtr12.type_data = some { dx := F32.one, dy := F32.two, dz := F32.zero } ∧
    ((∃ w, esave exExtr22 Storage.blank 32760 false = some w ∧ w.2 = int16 (32760 + 13) ∧
      (read_float w.1 32760 false).1 = ({ dx := F32.one, dy := F32.two, dz := F32.zero } : ExtruderData).dx ∧
      (read_float w.1 (int16 (32760 + 4)) false).1 = ({ dx := F32.one, dy := F32.two, dz := F32.zero } : ExtruderData).dy ∧
      (read_float w.1 (int16 (32760 + 8)) false).1 = ({ dx := F32.one, dy := F32.two, dz := F32.zero } : ExtruderData).dz ∧
      (read_8 w.1 (int16 (32760 + 12)) false).1 = exExtr22.num_axes % 256 ∧
      ∀ e' a, (e' ≠ false ∨ (a ≠ 32760 ∧ ∀ k : Int, 1 ≤ k → k < 13 → a ≠ int16 (32760 + k))) →
        w.1.bank e' a = Storage.blank.bank e' a) ∧
    (∃ r, eload true exExtr12 0 exStore43 32760 false = some r ∧ r.addr = int16 (32760 + 13) ∧
      r.space.type_data = some { dx := (read_float exStore43 32760 false).1,
                                 dy := (read_float exStore43 (int16 (32760 + 4)) false).1,
                                 dz := (read_float exStore43 (int16 (32760 + 8)) false).1 } ∧
      r.space.num_axes = (read_8 exStore43 (int16 (32760 + 12)) false).1 ∧
      r.space.num_motors = (read_8 exStore43 (int16 (32760 + 12)) false).1) ∧
    ((-32768 : Int) ≤ 32760 → (32760 : Int) + 13 ≤ 32767 →
      int16 (32760 + 4) = 32760 + 4 ∧ int16 (32760 + 8) = 32760 + 8 ∧
      int16 (32760 + 12) = 32760 + 12 ∧ int16 (32760 + 13) = 32760 + 13)) :=
  ⟨rfl, rfl,
    C8_extruder_field_order exExtr22 exExtr12 _ _ 0 Storage.blank exStore43 32760 false
      rfl rfl⟩

/-- C9, amended: for the Cartesian variant the one byte `save` writes, at the
start address, is the count byte; for the Extruder variant the byte at the start
address is the first (least significant) byte of `dx`, the three offset floats
come first and the count byte follows them at start + 12. -/
theorem C9_first_byte_by_variant (c s : Space) (d : ExtruderData) (st : Storage)
    (addr : Int) (eeprom : Bool)
    (hc : c.num_axes < 256) (hn : s.num_axes < 256) (hs : s.type_data = some d) :
    ((read_8 (save c st addr eeprom).1 addr eeprom).1 = c.num_axes ∧
      (save c st addr eeprom).2 = int16 (addr + 1) ∧
      ∀ e' a, (e' ≠ eeprom ∨ a ≠ addr) → (save c st addr eeprom).1.bank e' a = st.bank e' a) ∧
    (∃ w, esave s st addr eeprom = some w ∧
      (read_8 w.1 addr eeprom).1 = d.dx.val % 256 ∧
      (read_float w.1 addr eeprom).1 = d.dx ∧
      (read_8 w.1 (int16 (addr + 12)) eeprom).1 = s.num_axes) := by
  constructor
  · refine ⟨?_, rfl, ?_⟩
    · simp [save, read_8_eq, write_8_bank, Nat.mod_eq_of_lt hc]
    · intro e' a h
      exact write_8_frame st eeprom e' addr a c.num_axes h
  · refine ⟨_, esave_eq s d st addr eeprom hs, esave_read_first s d st addr eeprom,
      esave_read_dx s d st addr eeprom, ?_⟩
    rw [esave_read_num, Nat.mod_eq_of_lt hn]

/-- Witness of C9 on the two example Spaces. -/
theorem C9_first_byte_by_variant_witness :
    exCart22.num_axes < 256 ∧ exExtr22.num_axes < 256 ∧
    exExtr22.type_data = some { dx := F32.one, dy := F32.two, dz := F32.zero } ∧
    (((read_8 (save exCart22 Storage.blank 0 true).1 0 true).1 = exCart22.num_axes ∧
      (save exCart22 Storage.blank 0 true).2 = int16 (0 + 1) ∧
      ∀ e' a, (e' ≠ true ∨ a ≠ 0) →
        (save exCart22 Storage.blank 0 true).1.bank e' a = Storage.blank.bank e' a) ∧
    (∃ w, esave exExtr22 Storage.blank 0 true = some w ∧
      (read_8 w.1 0 true).1 = F32.one.val % 256 ∧
      (read_float w.1 0 true).1 = F32.one ∧
      (read_8 w.1 (int16 (0 + 12)) true).1 = exExtr22.num_axes)) :=
  ⟨by decide, by decide, rfl,
    C9_first_byte_by_variant exCart22 exExtr22 _ Storage.blank 0 true
      (by decide) (by decide) rfl⟩

/-- C9 as stated fails for the Extruder variant: after `esave` of a two-axis
Space with `dx = 1.0` at address 0, the byte at address 0 is 0, not the count 2;
the count byte is at address 12. -/
theorem C9_counterexample_extruder_first_byte :
    exExtr22.num_axes = 2 ∧
    ∃ w, esave exExtr22 Storage.blank 0 true = some w ∧
      (read_8 w.1 0 true).1 = 0 ∧
      (read_8 w.1 0 true).1 ≠ exExtr22.num_axes ∧
      (read_8 w.1 12 true).1 = exExtr22.num_axes := by
  refine ⟨rfl, _, rfl, ?_, ?_, ?_⟩
  · decide
  · decide
  · decide

/-- C10: the Extruder entry of the dispatch table maps steps exactly as the
Cartesian one: for every Space, whatever offset vector it stores, `xyz2motors`
of the Extruder succeeds with `motors[i]` equal to `xyz[i]` for all
`i < num_axes`, gives what the Cartesian `xyz2motors` gives, and gives the same
for any other offset vector. -/
theorem C10_extruder_same_mapping (s : Space) (d d' : ExtruderData)
    (xyz motors : List F32) (ok : Bool)
    (hx : s.num_axes ≤ xyz.length) (hm : s.num_axes ≤ motors.length) :
    (∃ motors', Extruder_init.xyz2motors { s with type_data := some d } xyz motors ok
        = some (motors', ok) ∧
      ∀ i, i < s.num_axes → ∃ v, xyz[i]? = some v ∧ motors'[i]? = some v) ∧
    Extruder_init.xyz2motors { s with type_data := some d } xyz motors ok
      = Cartesian_init.xyz2motors { s with type_data := some d } xyz motors ok ∧
    Extruder_init.xyz2motors { s with type_data := some d } xyz motors ok
      = Extruder_init.xyz2motors { s with type_data := some d' } xyz motors ok := by
  refine ⟨?_, rfl, rfl⟩
  exact xyz2motors_spec { s with type_data := some d } xyz motors ok hx hm

/-- Witness of C10 on the two-axis Extruder Space. -/
theorem C10_extruder_same_mapping_witness :
    exExtr22.num_axes ≤ [F32.two, F32.nan].length ∧
    exExtr22.num_axes ≤ [F32.zero, F32.zero].length ∧
    ((∃ motors', Extruder_init.xyz2motors
          { exExtr22 with type_data := some { dx := F32.one, dy := F32.one, dz := F32.one } }
          [F32.two, F32.nan] [F32.zero, F32.zero] false = some (motors', false) ∧
      ∀ i, i < exExtr22.num_axes →
        ∃ v, [F32.two, F32.nan][i]? = some v ∧ motors'[i]? = some v) ∧
    Extruder_init.xyz2motors
        { exExtr22 with type_data := some { dx := F32.one, dy := F32.one, dz := F32.one } }
        [F32.two, F32.nan] [F32.zero, F32.zero] false
      = Cartesian_init.xyz2motors
        { exExtr22 with type_data := some { dx := F32.one, dy := F32.one, dz := F32.one } }
        [F32.two, F32.nan] [F32.zero, F32.zero] false ∧
    Extruder_init.xyz2motors
        { exExtr22 with type_data := some { dx := F32.one, dy := F32.one, dz := F32.one } }
        [F32.two, F32.nan] [F32.zero, F32.zero] false
      = Extruder_init.xyz2motors
        { exExtr22 with type_data := some { dx := F32.zero, dy := F32.two, dz := F32.nan } }
        [F32.two, F32.nan] [F32.zero, F32.zero] false) :=
  ⟨by decide, by decide,
    C10_extruder_same_mapping exExtr22 { dx := F32.one, dy := F32.one, dz := F32.one }
      { dx := F32.zero, dy := F32.two, dz := F32.nan }
      [F32.two, F32.nan] [F32.zero, F32.zero] false (by decide) (by decide)⟩

/-- C12: `check_position` does nothing: for every Space and every candidate
vector it returns with both unchanged, and it is the entry of the Cartesian and
of the Extruder dispatch table alike. -/
theorem C12_check_position_noop (s : Space) (data : List F32) :
    check_position s data = (s, data) ∧
    Cartesian_init.check_position s data = (s, data) ∧
    Extruder_init.check_position s data = (s, data) :=
  ⟨rfl, rfl, rfl⟩

/-- C13: every value of `enum Command` (`CMD_RESET` = 0 up to `CMD_SENSE` = 39) is
below 128 and is unchanged by masking with `COMMAND_LEN_MASK` (0x7f); every
single-byte control token is a byte with its top bit (0x80) set; so no command
identifier equals a control token. -/
theorem C13_commands_and_tokens_separable (c : Command) (t : SingleByteCommands) :
    Command.CMD_RESET.val = 0 ∧ Command.CMD_SENSE.val = 39 ∧ COMMAND_LEN_MASK = 0x7f ∧
    c.val ≤ Command.CMD_SENSE.val ∧ c.val < 128 ∧ c.val &&& COMMAND_LEN_MASK = c.val ∧
    t.val < 256 ∧ t.val &&& 0x80 = 0x80 ∧ c.val ≠ t.val := by
  have hc : c.val ≤ 39 ∧ c.val &&& COMMAND_LEN_MASK = c.val := by
    cases c <;> decide
  have ht : 128 ≤ t.val ∧ t.val < 256 ∧ t.val &&& 0x80 = 0x80 := by
    cases t <;> decide
  refine ⟨by decide, by decide, rfl, ?_, ?_, hc.2, ht.2.1, ht.2.2, ?_⟩
  · exact hc.1
  · omega
  · omega

/-- C14: `xyz2motors` (the Cartesian and the Extruder entry alike) changes
nothing but its output: the call succeeds on arrays of at least `num_axes`
entries and leaves the Space, the vector `xyz` and the flag `ok` as they were,
and every `motors[j]` with `j >= num_axes` as it was. -/
theorem C14_xyz2motors_frame (c : XyzCall)
    (hx : c.s.num_axes ≤ c.xyz.length) (hm : c.s.num_axes ≤ c.motors.length) :
    ∃ c', XyzCall.run Cartesian_init.xyz2motors c = some c' ∧
      XyzCall.run Extruder_init.xyz2motors c = some c' ∧
      c'.s = c.s ∧ c'.xyz = c.xyz ∧ c'.ok = c.ok ∧
      c'.motors.length = c.motors.length ∧
      ∀ j, c.s.num_axes ≤ j → c'.motors[j]? = c.motors[j]? := by
  obtain ⟨m', hrun, hlen, hout⟩ := xyz2motors_frame c.s c.xyz c.motors c.ok hx hm
  have hr : XyzCall.run xyz2motors c = some { c with motors := m', ok := c.ok } := by
    simp [XyzCall.run, hrun]
  exact ⟨{ c with motors := m', ok := c.ok }, hr, hr, rfl, rfl, rfl, hlen, hout⟩

/-- Witness of C14: two axes, a `motors` array of three entries, `ok` false on
entry. -/
theorem C14_xyz2motors_frame_witness :
    exCart22.num_axes ≤ [F32.one, F32.two].length ∧
    exCart22.num_axes ≤ [F32.zero, F32.zero, F32.nan].length ∧
    ∃ c', XyzCall.run Cartesian_init.xyz2motors
        { s := exCart22, xyz := [F32.one, F32.two],
          motors := [F32.zero, F32.zero, F32.nan], ok := false } = some c' ∧
      XyzCall.run Extruder_init.xyz2motors
        { s := exCart22, xyz := [F32.one, F32.two],
          motors := [F32.zero, F32.zero, F32.nan], ok := false } = some c' ∧
      c'.s = exCart22 ∧ c'.xyz = [F32.one, F32.two] ∧ c'.ok = false ∧
      c'.motors.length = [F32.zero, F32.zero, F32.nan].length ∧
      ∀ j, exCart22.num_axes ≤ j → c'.motors[j]? = [F32.zero, F32.zero, F32.nan][j]? :=
  ⟨by decide, by decide,
    C14_xyz2motors_frame
      { s := exCart22, xyz := [F32.one, F32.two],
        motors := [F32.zero, F32.zero, F32.nan], ok := false } (by decide) (by decide)⟩

/-- C15: after a successful `load` or `eload` (`setup_nums` returned true and
set the counts it was given), `num_axes` and `num_motors` both equal the count
byte read from the store and the arrays have that many entries; so `reset_pos`
on such a Space reads `motor[a]` only for `a < num_motors`: every motor it reads
exists, it runs to its end and leaves each axis source equal to the motor
position and not NaN. -/
theorem C15_loaded_space_in_range (c s : Space) (d : ExtruderData) (old_type : Nat)
    (st : Storage) (addr : Int) (eeprom : Bool) (hs : s.type_data = some d) :
    ((load true c old_type st addr eeprom).debug = [] ∧
      (load true c old_type st addr eeprom).space.num_axes = (read_8 st addr eeprom).1 ∧
      (load true c old_type st addr eeprom).space.num_motors = (read_8 st addr eeprom).1 ∧
      (load true c old_type st addr eeprom).space.wf ∧
      ∃ s', reset_pos (load true c old_type st addr eeprom).space = some s' ∧
        ∀ a, a < (load true c old_type st addr eeprom).space.num_axes → ∃ m ax',
          a < (load true c old_type st addr eeprom).space.num_motors ∧ (load true c old_type st addr eeprom).space.motor[a]? = some m ∧
          s'.axis[a]? = some ax' ∧ s'.motor[a]? = some (Motor.reset m) ∧
          ax'.source = (Motor.reset m).current_pos ∧ isnan ax'.source = false) ∧
    (∃ r, eload true s old_type st addr eeprom = some r ∧ r.debug = [] ∧
      r.space.num_axes = (read_8 st (int16 (addr + 12)) eeprom).1 ∧
      r.space.num_motors = (read_8 st (int16 (addr + 12)) eeprom).1 ∧
      r.space.wf ∧
      ∃ s', reset_pos r.space = some s' ∧
        ∀ a, a < r.space.num_axes → ∃ m ax',
          a < r.space.num_motors ∧ r.space.motor[a]? = some m ∧
          s'.axis[a]? = some ax' ∧ s'.motor[a]? = some (Motor.reset m) ∧
          ax'.source = (Motor.reset m).current_pos ∧ isnan ax'.source = false) := by
  constructor
  · rw [load_eq]
    have hlt := read_8_lt st addr eeprom
    have hwf := setup_nums_wf c _ _ hlt hlt
    have hok := setup_nums_ok c (read_8 st addr eeprom).1 (read_8 st addr eeprom).1
    exact ⟨rfl, hok.2.1, hok.2.2.1, hwf,
      reset_pos_reads _ hwf (by rw [hok.2.1, hok.2.2.1])⟩
  · refine ⟨_, eload_eq true s d old_type st addr eeprom hs, rfl, ?_⟩
    have hlt := read_8_lt st (int16 (addr + 12)) eeprom
    have hwf := setup_nums_wf
      { s with type_data := some { dx := (read_float st addr eeprom).1,
                                   dy := (read_float st (int16 (addr + 4)) eeprom).1,
                                   dz := (read_float st (int16 (addr + 8)) eeprom).1 } }
      _ _ hlt hlt
    have hok := setup_nums_ok
      { s with type_data := some { dx := (read_float st addr eeprom).1,
                                   dy := (read_float st (int16 (addr + 4)) eeprom).1,
                                   dz := (read_float st (int16 (addr + 8)) eeprom).1 } }
      (read_8 st (int16 (addr + 12)) eeprom).1 (read_8 st (int16 (addr + 12)) eeprom).1
    exact ⟨hok.2.1, hok.2.2.1, hwf, reset_pos_reads _ hwf (by rw [hok.2.1, hok.2.2.1])⟩

/-- Witness of C15: a Cartesian Space with two axes and three motors loads the
count 4, an Extruder Space with two axes loads the count 3. -/
theorem C15_loaded_space_in_range_witness :
    exExtr22.type_data = some { dx := F32.one, dy := F32.two, dz := F32.zero } ∧
    (read_8 exStore43 0 true).1 = 4 ∧ (read_8 exStore43 (int16 (0 + 12)) true).1 = 3 ∧
    (((load true exCart23 1 exStore43 0 true).debug = [] ∧
      (load true exCart23 1 exStore43 0 true).space.num_axes = (read_8 exStore43 0 true).1 ∧
      (load true exCart23 1 exStore43 0 true).space.num_motors = (read_8 exStore43 0 true).1 ∧
      (load true exCart23 1 exStore43 0 true).space.wf ∧
      ∃ s', reset_pos (load true exCart23 1 exStore43 0 true).space = some s' ∧
        ∀ a, a < (load true exCart23 1 exStore43 0 true).space.num_axes → ∃ m ax',
          a < (load true exCart23 1 exStore43 0 true).space.num_motors ∧ (load true exCart23 1 exStore43 0 true).space.motor[a]? = some m ∧
          s'.axis[a]? = some ax' ∧ s'.motor[a]? = some (Motor.reset m) ∧
          ax'.source = (Motor.reset m).current_pos ∧ isnan ax'.source = false) ∧
    (∃ r, eload true exExtr22 1 exStore43 0 true = some r ∧ r.debug = [] ∧
      r.space.num_axes = (read_8 exStore43 (int16 (0 + 12)) true).1 ∧
      r.space.num_motors = (read_8 exStore43 (int16 (0 + 12)) true).1 ∧
      r.space.wf ∧
      ∃ s', reset_pos r.space = some s' ∧
        ∀ a, a < r.space.num_axes → ∃ m ax',
          a < r.space.num_motors ∧ r.space.motor[a]? = some m ∧
          s'.axis[a]? = some ax' ∧ s'.motor[a]? = some (Motor.reset m) ∧
          ax'.source = (Motor.reset m).current_pos ∧ isnan ax'.source = false)) :=
  ⟨rfl, by decide, by decide,
    C15_loaded_space_in_range exCart23 exExtr22 _ 1 exStore43 0 true rfl⟩

/-- C16: from the same start address `load` leaves the cursor where `save`
leaves it, one byte on, and `eload` leaves it where `esave` leaves it, 13 bytes
on, whether `setup_nums` succeeds or not.  The cursor is an `int16_t`, so "on"
is in its arithmetic; where the cursor does not pass 32767 that is start + 1
and start + 13. -/
theorem C16_load_save_same_cursor (mem_ok : Bool) (lc sc s t : Space) (d d0 : ExtruderData)
    (old_type : Nat) (st st' : Storage) (addr : Int) (eeprom : Bool)
    (hs : s.type_data = some d) (ht : t.type_data = some d0) :
    ((load mem_ok lc old_type st' addr eeprom).addr = (save sc st addr eeprom).2 ∧
      (save sc st addr eeprom).2 = int16 (addr + 1)) ∧
    (∃ w r, esave s st addr eeprom = some w ∧
      eload mem_ok t old_type st' addr eeprom = some r ∧
      r.addr = w.2 ∧ w.2 = int16 (addr + 13)) ∧
    (-32768 ≤ addr → addr + 13 ≤ 32767 →
      int16 (addr + 1) = addr + 1 ∧ int16 (addr + 13) = addr + 13) := by
  refine ⟨⟨?_, rfl⟩, ⟨_, _, esave_eq s d st addr eeprom hs,
    eload_eq mem_ok t d0 old_type st' addr eeprom ht, ?_, esave_cursor s d st addr eeprom⟩, ?_⟩
  · rw [load_eq]
    rfl
  · rw [esave_cursor]
  · intro hlo hhi
    unfold int16
    omega

/-- Witness of C16 with `setup_nums` failing, from address 32760, where the
cursor wraps. -/
theorem C16_load_save_same_cursor_witness :
    exExtr22.type_data = some { dx := F32.one, dy := F32.two, dz := F32.zero } ∧
    exExtr12.type_data = some { dx := F32.one, dy := F32.two, dz := F32.zero } ∧
    (((load false exCart22 1 exStore43 32760 true).addr = (save exCart23 Storage.blank 32760 true).2 ∧
      (save exCart23 Storage.blank 32760 true).2 = int16 (32760 + 1)) ∧
    (∃ w r, esave exExtr22 Storage.blank 32760 true = some w ∧
      eload false exExtr12 1 exStore43 32760 true = some r ∧
      r.addr = w.2 ∧ w.2 = int16 (32760 + 13)) ∧
    (-32768 ≤ (32760 : Int) → (32760 : Int) + 13 ≤ 32767 →
      int16 (32760 + 1) = 32760 + 1 ∧ int16 (32760 + 13) = 32760 + 13)) :=
  ⟨rfl, rfl,
    C16_load_save_same_cursor false exCart22 exCart23 exExtr22 exExtr12 _ _ 1 Storage.blank
      exStore43 32760 true rfl rfl⟩

/-- C17: two different single-byte control tokens have different values that
differ in at least 3 bit positions, so flipping one bit, or two bits, of a
token never gives the value of another token. -/
theorem C17_tokens_distance_three (t u : SingleByteCommands) (h : t ≠ u) :
    t.val ≠ u.val ∧ 3 ≤ bitDistance t.val u.val ∧
    ∀ i j : Fin 8, flipBit t.val i.val ≠ u.val ∧
      flipBit (flipBit t.val i.val) j.val ≠ u.val := by
  cases t <;> cases u <;> first | exact absurd rfl h | decide

/-- Witness of C17: the not-acknowledged token against the first
acknowledged one. -/
theorem C17_tokens_distance_three_witness :
    SingleByteCommands.CMD_NACK ≠ SingleByteCommands.CMD_ACK0 ∧
    SingleByteCommands.CMD_NACK.val ≠ SingleByteCommands.CMD_ACK0.val ∧
    3 ≤ bitDistance SingleByteCommands.CMD_NACK.val SingleByteCommands.CMD_ACK0.val ∧
    ∀ i j : Fin 8,
      flipBit SingleByteCommands.CMD_NACK.val i.val ≠ SingleByteCommands.CMD_ACK0.val ∧
      flipBit (flipBit SingleByteCommands.CMD_NACK.val i.val) j.val
        ≠ SingleByteCommands.CMD_ACK0.val :=
  ⟨by decide,
    C17_tokens_distance_three SingleByteCommands.CMD_NACK SingleByteCommands.CMD_ACK0
      (by decide)⟩

/-- C18: for every `Pin_t` `p` with `flags <= 3` and
`pin < NUM_DIGITAL_PINS + NUM_ANALOG_INPUTS`, `read(p.write())` called on any
`Pin_t` `q` leaves `q` with the flags and the pin number of `p`; `write` puts the
flags in the high byte and the pin in the low byte of a 16 bit word. -/
theorem C18_pin_roundtrip {H : Type} (SET_INPUT_NOPULLUP : Pin_t → H → H)
    (NUM_DIGITAL_PINS NUM_ANALOG_INPUTS : Nat) (p q : Pin_t) (hw : H)
    (hwf : p.wf) (hf : p.flags ≤ 3) (hp : p.pin < NUM_DIGITAL_PINS + NUM_ANALOG_INPUTS) :
    p.write < 65536 ∧ p.write / 256 = p.flags ∧ p.write % 256 = p.pin ∧
    (Pin_t.read SET_INPUT_NOPULLUP NUM_DIGITAL_PINS NUM_ANALOG_INPUTS q hw p.write).1.flags
      = p.flags ∧
    (Pin_t.read SET_INPUT_NOPULLUP NUM_DIGITAL_PINS NUM_ANALOG_INPUTS q hw p.write).1.pin
      = p.pin := by
  have hw' := Pin_t.write_eq p hwf
  obtain ⟨_, hpin⟩ := hwf
  have h1 : p.write / 256 = p.flags := by omega
  have h2 : p.write % 256 = p.pin := by omega
  have h3 : p.write / 256 % 256 = p.flags := by omega
  have hcond : ¬ (4 ≤ p.flags ∨ NUM_DIGITAL_PINS + NUM_ANALOG_INPUTS ≤ p.pin) := by
    omega
  refine ⟨by omega, h1, h2, ?_, ?_⟩
  · rw [Pin_t.read_eq, h3, h2, if_neg hcond]
  · rw [Pin_t.read_eq, h3, h2, if_neg hcond]

/-- Witness of C18: an inverted valid pin 13 on a board with 20 digital pins and
6 analog inputs, read into a pin that was 7. -/
theorem C18_pin_roundtrip_witness :
    ({ flags := 3, pin := 13 } : Pin_t).wf ∧ (3 : Nat) ≤ 3 ∧ (13 : Nat) < 20 + 6 ∧
    ({ flags := 3, pin := 13 } : Pin_t).write < 65536 ∧
    ({ flags := 3, pin := 13 } : Pin_t).write / 256 = 3 ∧
    ({ flags := 3, pin := 13 } : Pin_t).write % 256 = 13 ∧
    (Pin_t.read exSetInput 20 6 { flags := 1, pin := 7 } []
      ({ flags := 3, pin := 13 } : Pin_t).write).1.flags = 3 ∧
    (Pin_t.read exSetInput 20 6 { flags := 1, pin := 7 } []
      ({ flags := 3, pin := 13 } : Pin_t).write).1.pin = 13 :=
  ⟨by decide, by decide, by decide,
    C18_pin_roundtrip exSetInput 20 6 { flags := 3, pin := 13 } { flags := 1, pin := 7 } []
      (by decide) (by decide) (by decide)⟩

/-- C19: for every 16 bit word `data`, after `read(data)` the flags have no bit
set outside the low two; when the high byte of `data` has a bit other than bits
0 and 1 set, or the low byte is at least
`NUM_DIGITAL_PINS + NUM_ANALOG_INPUTS`, flags and pin are both 0; hence when
`valid()` is true afterwards the pin is below
`NUM_DIGITAL_PINS + NUM_ANALOG_INPUTS`. -/
theorem C19_pin_read_validates {H : Type} (SET_INPUT_NOPULLUP : Pin_t → H → H)
    (NUM_DIGITAL_PINS NUM_ANALOG_INPUTS : Nat) (q : Pin_t) (hw : H) (data : Nat)
    (hd : data < 65536) :
    (Pin_t.read SET_INPUT_NOPULLUP NUM_DIGITAL_PINS NUM_ANALOG_INPUTS q hw data).1.flags
      &&& 0xfffc = 0 ∧
    (((data >>> 8) &&& 0xfffc ≠ 0 ∨
        NUM_DIGITAL_PINS + NUM_ANALOG_INPUTS ≤ data &&& 0xff) →
      (Pin_t.read SET_INPUT_NOPULLUP NUM_DIGITAL_PINS NUM_ANALOG_INPUTS q hw data).1
        = { flags := 0, pin := 0 }) ∧
    ((Pin_t.read SET_INPUT_NOPULLUP NUM_DIGITAL_PINS NUM_ANALOG_INPUTS q hw data).1.valid
        = true →
      (Pin_t.read SET_INPUT_NOPULLUP NUM_DIGITAL_PINS NUM_ANALOG_INPUTS q hw data).1.pin
        < NUM_DIGITAL_PINS + NUM_ANALOG_INPUTS) := by
  have hhi : data / 256 < 256 := by omega
  have hmod : data / 256 % 256 = data / 256 := Nat.mod_eq_of_lt hhi
  have hmask : ((data >>> 8) &&& 0xfffc ≠ 0) ↔ 4 ≤ data / 256 := by
    have := and_fffc (data / 256) hhi
    rw [shr_8]
    constructor
    · intro h
      have h' : (data / 256 &&& 0xfffc != 0) = true := by simpa using h
      rw [this] at h'
      exact of_decide_eq_true h'
    · intro h
      have h' : (data / 256 &&& 0xfffc != 0) = true := by
        rw [this]
        exact decide_eq_true h
      simpa using h'
  rw [Pin_t.read_eq, hmod, and_ff]
  by_cases hc : 4 ≤ data / 256 ∨ NUM_DIGITAL_PINS + NUM_ANALOG_INPUTS ≤ data % 256
  · rw [if_pos hc]
    refine ⟨Nat.zero_and _, fun _ => rfl, ?_⟩
    intro hv
    simp [Pin_t.valid] at hv
  · rw [if_neg hc]
    have hsmall : data / 256 ≤ 3 := by omega
    refine ⟨and_fffc_small _ hsmall, ?_, ?_⟩
    · intro h
      exfalso
      rcases h with h | h
      · exact hc (Or.inl (hmask.mp h))
      · exact hc (Or.inr h)
    · intro _
      show data % 256 < NUM_DIGITAL_PINS + NUM_ANALOG_INPUTS
      omega

/-- Witness of C19: the word 0x0528, whose high byte has bit 2 set. -/
theorem C19_pin_read_validates_witness :
    (0x0528 : Nat) < 65536 ∧
    (Pin_t.read exSetInput 20 6 { flags := 1, pin := 7 } [] 0x0528).1.flags &&& 0xfffc = 0 ∧
    ((((0x0528 : Nat) >>> 8) &&& 0xfffc ≠ 0 ∨ 20 + 6 ≤ (0x0528 : Nat) &&& 0xff) →
      (Pin_t.read exSetInput 20 6 { flags := 1, pin := 7 } [] 0x0528).1
        = { flags := 0, pin := 0 }) ∧
    ((Pin_t.read exSetInput 20 6 { flags := 1, pin := 7 } [] 0x0528).1.valid = true →
      (Pin_t.read exSetInput 20 6 { flags := 1, pin := 7 } [] 0x0528).1.pin < 20 + 6) :=
  ⟨by decide, C19_pin_read_validates exSetInput 20 6 { flags := 1, pin := 7 } [] 0x0528
    (by decide)⟩

end Franklin
